import Mathlib

/-!
Verification development for the GitHub-webhook → Discord notification
pipeline implemented in `bot.py`.

The embedding models the five components the specification names:

* `get_diff_from_github`   (DiffFetcher)
* `summarize_diff_with_openai` (Summarizer)
* `process_pull_request`   (pipeline glue: fetch then summarize)
* `github_webhook`         (WebhookReceiver, the Flask handler)
* `send_discord_message`   (ChatPublisher)

External collaborators (the `requests` HTTP client, the OpenAI chat
completion endpoint, the Discord channel registry) are passed in as
oracle functions, so each source function becomes a pure Lean function
from its inputs and oracles to an ordered trace of observable effects
plus its return value.  A Python exception that the source code does not
catch is modelled as an `Except.error`; the trace returned by a function
lists exactly the side effects it performs before returning, in order.
For the HTTP handler this means: every effect in the returned trace
happens before the HTTP response is produced, and the only deferral the
handler performs is recorded as an `Effect.scheduleSend` entry
(`client.loop.create_task(send_discord_message(...))` in the source).

Scope notes on the model:
* JSON numbers are modelled as integers and JSON arrays are omitted:
  the handler only reads string- and object-valued fields, and the
  claims quantify over payloads in that fragment.
* Network-level exceptions raised by `requests.get` itself are not
  modelled; the network oracle always yields a `(status, body)` pair,
  which is the behaviour all claims are about.
* Unicode whitespace beyond the ASCII range, and underscore digit
  grouping accepted by the Python `int` constructor, are not modelled.
-/

/-- JSON-like values as delivered by `request.json`, restricted to the
fragment the handler inspects (no arrays, integer numbers only). -/
inductive JValue where
  | null
  | bool (b : Bool)
  | num (n : Int)
  | str (s : String)
  | obj (fields : List (String × JValue))

/-- Python errors that the modelled code can raise. -/
inductive PyError where
  | keyError (key : String)
  | typeError
  | valueError
  | attributeError
  | exception (msg : String)
deriving DecidableEq

/-- First-match lookup in an association list, the semantics of reading a
key of a Python dict (dict keys are unique, so first match is the match). -/
def jlookup (fields : List (String × JValue)) (k : String) : Option JValue :=
  (fields.find? (fun p => p.1 == k)).map (fun p => p.2)

/-- Python truthiness of a JSON value: `None`, `False`, `0`, `""` and
`{}` are falsy, everything else is truthy. -/
def JValue.pyTruthy : JValue → Bool
  | .null => false
  | .bool b => b
  | .num n => n != 0
  | .str s => s != ""
  | .obj fields => !fields.isEmpty

/-- Python subscript `v[k]` with a string key: on a dict it returns the
value or raises `KeyError`; on any non-dict value it raises `TypeError`. -/
def JValue.getItem : JValue → String → Except PyError JValue
  | .obj fields, k =>
      match jlookup fields k with
      | some v => .ok v
      | none => .error (.keyError k)
  | _, _ => .error .typeError

/-- Python `v.get(k)`: defined on dicts (returning `None`, modelled as
`Option.none`, for a missing key); on a non-dict it raises
`AttributeError` because the attribute `get` does not exist. -/
def JValue.pyGet : JValue → String → Except PyError (Option JValue)
  | .obj fields, k => .ok (jlookup fields k)
  | _, _ => .error .attributeError

mutual

/-- Simplified Python repr of a nested value (quotes strings, without
modelling the escaping Python applies to quotes inside them). -/
def JValue.pyRepr : JValue → String
  | .null => "None"
  | .bool true => "True"
  | .bool false => "False"
  | .num n => toString n
  | .str s => "\x27" ++ s ++ "\x27"
  | .obj fields => "\x7b" ++ JValue.reprFields fields ++ "\x7d"

/-- Comma-separated `key: repr` items of a Python dict display. -/
def JValue.reprFields : List (String × JValue) → String
  | [] => ""
  | [(k, v)] => "\x27" ++ k ++ "\x27: " ++ JValue.pyRepr v
  | (k, v) :: rest => "\x27" ++ k ++ "\x27: " ++ JValue.pyRepr v ++ ", " ++ JValue.reprFields rest

end

/-- Python `str(v)` as performed by f-string interpolation.  Exact for
strings, `None`, booleans and integers; for dicts it follows the Python
dict display with the simplified repr above (the metadata fields of a
real webhook payload are plain strings, on which `pyStr` is exact). -/
def JValue.pyStr : JValue → String
  | .null => "None"
  | .bool true => "True"
  | .bool false => "False"
  | .num n => toString n
  | .str s => s
  | .obj fields => "\x7b" ++ JValue.reprFields fields ++ "\x7d"

/-- The whitespace characters stripped by Python `str.strip()`
(ASCII range: space, tab, newline, carriage return, vertical tab,
form feed). -/
def isPyWhitespace (c : Char) : Bool :=
  c == ' ' || c == '\t' || c == '\n' || c == '\r' || c == '\x0b' || c == '\x0c'

/-- Python `s.strip()`: removes leading and trailing whitespace. -/
def pyStrip (s : String) : String :=
  ⟨((s.data.dropWhile isPyWhitespace).reverse.dropWhile isPyWhitespace).reverse⟩

/-- Value of a nonempty all-digit character list, `none` otherwise. -/
def digitsVal (cs : List Char) : Option Nat :=
  if cs ≠ [] ∧ cs.all Char.isDigit then
    some (cs.foldl (fun a c => 10 * a + (c.toNat - 48)) 0)
  else none

/-- Python `int(s)` on a string: strips surrounding whitespace, accepts an
optional sign followed by at least one decimal digit; any other string
raises `ValueError` (modelled as `none`). -/
def pyIntOfString (s : String) : Option Int :=
  match (pyStrip s).data with
  | '+' :: rest => (digitsVal rest).map Int.ofNat
  | '-' :: rest => (digitsVal rest).map (fun n => -(n : Int))
  | rest => (digitsVal rest).map Int.ofNat

/-- The process-wide configuration read from the environment at startup
(`os.getenv` block at the top of `bot.py`). -/
structure Config where
  githubToken : String
  openaiApiKey : String
  discordBotToken : String
  githubWebhookSecret : String
  discordChannelId : String
  port : Nat
deriving DecidableEq

/-- The chat-completion request `summarize_diff_with_openai` issues:
fixed model, fixed system message, user prompt built from the diff,
temperature 0.3 (stored as tenths to stay in exact arithmetic) and a
bound of 800 output tokens. -/
structure OpenAIRequest where
  model : String
  systemContent : String
  userContent : String
  temperatureTenths : Nat
  maxTokens : Nat
deriving DecidableEq

/-- Observable side effects of one webhook invocation, in program order.
`scheduleSend` records `client.loop.create_task(send_discord_message (...))`:
the one piece of work the handler defers until after its HTTP response. -/
inductive Effect where
  | httpGet (url : String) (authToken : String)
  | logFetchFailure (status : Nat)
  | aiCall (req : OpenAIRequest)
  | logAiFailure (e : PyError)
  | scheduleSend (channelId : String) (message : String)
deriving DecidableEq

/-- Observable side effects of one `send_discord_message` run. -/
inductive SendEffect where
  | resolveChannel (n : Int)
  | channelSend (channel : Nat) (message : String)
  | logChannelNotFound
deriving DecidableEq

/-- Network oracle: the response `(status_code, text)` that
`requests.get` obtains for a given URL. -/
def NetOracle := String → Nat × String

/-- OpenAI oracle: the outcome of `openai.ChatCompletion.create` followed
by the indexing `response["choices"][0]["message"]["content"]`.  An
`Except.error` covers every raise inside the `try` block up to that
point: network failure, quota or auth failure, and a malformed response
shape. -/
def AiOracle := OpenAIRequest → Except PyError JValue

/-- The user prompt of `summarize_diff_with_openai`, built by the string
concatenation at lines 60-65 of `bot.py`. -/
def build_prompt (diff_text : String) : String :=
  "Você é um assistente de code review. " ++
  "Analise o diff a seguir e produza um resumo das mudanças realizadas:\n\n" ++
  diff_text ++ "\n\n" ++
  "Por favor, liste as principais alterações e o impacto delas."

/-- The full chat-completion request for a given diff. -/
def mkChatRequest (diff_text : String) : OpenAIRequest :=
  { model := "gpt-3.5-turbo"
    systemContent := "Você é um assistente de code review experiente."
    userContent := build_prompt diff_text
    temperatureTenths := 3
    maxTokens := 800 }

/-- `get_diff_from_github` (bot.py lines 36-51): one GET with a token
authorization header; on a non-200 status it logs the failure and
returns the empty string, otherwise it returns the response text. -/
def get_diff_from_github (cfg : Config) (net : NetOracle) (diff_url : String) :
    List Effect × String :=
  let resp := net diff_url
  if resp.1 ≠ 200 then
    ([.httpGet diff_url cfg.githubToken, .logFetchFailure resp.1], "")
  else
    ([.httpGet diff_url cfg.githubToken], resp.2)

/-- `summarize_diff_with_openai` (bot.py lines 53-81).  An empty or
whitespace-only diff returns the no-content sentinel without any call.
Otherwise one chat-completion call is made; its `try` block catches
every exception (including a `.strip()` on a non-string content value)
and turns it into the failure sentinel, so the function always returns a
string and never propagates an error - its codomain carries no error
case. -/
def summarize_diff_with_openai (ai : AiOracle) (diff_text : String) :
    List Effect × String :=
  if pyStrip diff_text = "" then
    ([], "Não há conteúdo para análise ou o diff está vazio.")
  else
    let req := mkChatRequest diff_text
    match ai req with
    | .ok (.str summary) => ([.aiCall req], pyStrip summary)
    | .ok _ => ([.aiCall req, .logAiFailure .attributeError], "Falha ao chamar a OpenAI.")
    | .error e => ([.aiCall req, .logAiFailure e], "Falha ao chamar a OpenAI.")

/-- `process_pull_request` (bot.py lines 83-97): reads `diff_url` with
`dict.get`; a missing or falsy locator short-circuits with the fallback
string; a truthy non-string locator would be handed to `requests.get`,
which raises (modelled as `TypeError`); otherwise fetch then summarize. -/
def process_pull_request (cfg : Config) (net : NetOracle) (ai : AiOracle)
    (pr_payload : JValue) : Except PyError (List Effect × String) :=
  match pr_payload.pyGet "diff_url" with
  | .error e => .error e
  | .ok diff_url =>
    match diff_url with
    | none => .ok ([], "Pull Request não possui \x27diff_url\x27.")
    | some v =>
      if v.pyTruthy then
        match v with
        | .str url =>
          let fetched := get_diff_from_github cfg net url
          let summarized := summarize_diff_with_openai ai fetched.2
          .ok (fetched.1 ++ summarized.1, summarized.2)
        | _ => .error .typeError
      else
        .ok ([], "Pull Request não possui \x27diff_url\x27.")

/-- The Discord message template assembled at lines 122-127 of `bot.py`
(an f-string, hence a pure function of its five string inputs). -/
def format_discord_message (pr_title pr_url base_branch head_branch summary_result : String) :
    String :=
  "**Pull Request**: " ++ pr_title ++ "\n" ++
  "**Link**: " ++ pr_url ++ "\n" ++
  "**Branches**: " ++ base_branch ++ " <- " ++ head_branch ++ "\n\n" ++
  "**Resumo das Mudanças**:\n" ++ summary_result

/-- The trigger set of PR actions (bot.py line 112). -/
def triggerActions : List String := ["opened", "edited", "synchronize", "reopened"]

/-- Whether `payload.get("action")` lies in the trigger list under Python
`in` (list membership by equality; `None` or a non-string action never
equals any of the four strings). -/
def actionTriggered (payload : List (String × JValue)) : Bool :=
  match jlookup payload "action" with
  | some (.str s) => triggerActions.contains s
  | _ => false

/-- Whether the payload contains a `pull_request` key (bot.py line 108). -/
def hasPullRequest (payload : List (String × JValue)) : Bool :=
  (jlookup payload "pull_request").isSome

/-- The HTTP response of the webhook endpoint. -/
structure HttpResponse where
  status : Nat
  body : List (String × JValue)

/-- `jsonify({"status": "ok"}), 200` (bot.py line 134). -/
def okResponse : HttpResponse :=
  { status := 200, body := [("status", .str "ok")] }

/-- `github_webhook` (bot.py lines 102-134), on an already parsed JSON
object body.  The returned effect trace lists, in order, every side
effect the handler performs before `jsonify({"status": "ok"}), 200` is
returned; an `Except.error` is an exception the handler does not catch
(surfaced by Flask as a 500, not as the success response).  Note the
fetch and summarization effects of `process_pull_request` sit in this
pre-response trace: the only deferred work is the `scheduleSend` entry. -/
def github_webhook (cfg : Config) (net : NetOracle) (ai : AiOracle)
    (payload : List (String × JValue)) : Except PyError (List Effect × HttpResponse) :=
  match jlookup payload "pull_request" with
  | none => .ok ([], okResponse)
  | some pr =>
    if actionTriggered payload then
      match pr.getItem "title" with
      | .error e => .error e
      | .ok prTitle =>
      match pr.getItem "html_url" with
      | .error e => .error e
      | .ok prUrl =>
      match pr.getItem "base" with
      | .error e => .error e
      | .ok base =>
      match base.getItem "ref" with
      | .error e => .error e
      | .ok baseBranch =>
      match pr.getItem "head" with
      | .error e => .error e
      | .ok head =>
      match head.getItem "ref" with
      | .error e => .error e
      | .ok headBranch =>
      match process_pull_request cfg net ai pr with
      | .error e => .error e
      | .ok result =>
        let discordMessage := format_discord_message prTitle.pyStr prUrl.pyStr
          baseBranch.pyStr headBranch.pyStr result.2
        .ok (result.1 ++ [.scheduleSend cfg.discordChannelId discordMessage], okResponse)
    else
      .ok ([], okResponse)

/-- `send_discord_message` (bot.py lines 143-148): converts the channel
id with `int(...)` (raising `ValueError` on a non-numeric string before
any resolution is attempted), resolves the channel once through the
client, and either sends the message or logs that the channel was not
found.  `resolve` is the oracle for `client.get_channel`. -/
def send_discord_message (resolve : Int → Option Nat)
    (channel_id message : String) : Except PyError (List SendEffect) :=
  match pyIntOfString channel_id with
  | none => .error .valueError
  | some n =>
    match resolve n with
    | some ch => .ok [.resolveChannel n, .channelSend ch message]
    | none => .ok [.resolveChannel n, .logChannelNotFound]

/-! ## Shared fixtures and helper lemmas -/

/-- Whether an effect is the deferred-publish scheduling. -/
def Effect.isScheduleSend : Effect → Bool
  | .scheduleSend _ _ => true
  | _ => false

/-- Whether a PR object carries no usable diff locator: it is a dict
whose `diff_url` entry is absent or falsy (the condition under which
`process_pull_request` short-circuits with the fallback string). -/
def diffUrlMissing : JValue → Bool
  | .obj fields =>
      match jlookup fields "diff_url" with
      | none => true
      | some v => !v.pyTruthy
  | _ => false

/-- A concrete configuration used by the concrete runs below. -/
def sampleCfg : Config :=
  { githubToken := "gh-token", openaiApiKey := "oa-key",
    discordBotToken := "bot-token", githubWebhookSecret := "secret",
    discordChannelId := "123", port := 9000 }

/-- A network oracle whose every response is `200` with a fixed diff. -/
def sampleNet : NetOracle := fun _ => (200, "diff body")

/-- An OpenAI oracle that always succeeds with a fixed summary. -/
def sampleAi : AiOracle := fun _ => .ok (.str " resumo ")

/-- An OpenAI oracle that always raises. -/
def failAi : AiOracle := fun _ => .error (.exception "boom")

/-- A network oracle whose every response is a `404`. -/
def net404 : NetOracle := fun _ => (404, "Not Found")

/-- A complete PR object with all metadata and a diff locator. -/
def fullPR : JValue :=
  .obj [("title", .str "T"), ("html_url", .str "U"),
        ("base", .obj [("ref", .str "main")]),
        ("head", .obj [("ref", .str "dev")]),
        ("diff_url", .str "https://x.test/pr.diff")]

/-- A qualifying webhook payload around `fullPR`. -/
def fullPayload : List (String × JValue) :=
  [("action", .str "opened"), ("pull_request", fullPR)]

/-- The synchronous effect trace `github_webhook` produces on
`fullPayload` with `sampleCfg`, `sampleNet` and `sampleAi`. -/
def sampleTrace : List Effect :=
  [.httpGet "https://x.test/pr.diff" "gh-token",
   .aiCall (mkChatRequest "diff body"),
   .scheduleSend "123" (format_discord_message "T" "U" "main" "dev" "resumo")]

/-- A payload builder for qualifying events: the given action, the four
metadata fields as plain strings, plus any extra PR entries. -/
def mkPRPayload (action title url base head : String)
    (extra : List (String × JValue)) : List (String × JValue) :=
  [("action", .str action),
   ("pull_request", .obj
     ([("title", .str title), ("html_url", .str url),
       ("base", .obj [("ref", .str base)]),
       ("head", .obj [("ref", .str head)])] ++ extra))]

/-- The fetch trace always records the authorized GET. -/
lemma httpGet_mem_fetch_trace (cfg : Config) (net : NetOracle) (url : String) :
    Effect.httpGet url cfg.githubToken ∈ (get_diff_from_github cfg net url).1 := by
  unfold get_diff_from_github
  dsimp only
  split <;> simp

/-- The fetch step never schedules a publish. -/
lemma fetch_trace_no_schedule (cfg : Config) (net : NetOracle) (url : String) :
    ∀ e ∈ (get_diff_from_github cfg net url).1, e.isScheduleSend = false := by
  unfold get_diff_from_github
  dsimp only
  split <;> intro e he <;> simp at he <;>
    first
      | (subst he; rfl)
      | (rcases he with rfl | rfl <;> rfl)

/-- The summarizer never schedules a publish. -/
lemma summarize_trace_no_schedule (ai : AiOracle) (d : String) :
    ∀ e ∈ (summarize_diff_with_openai ai d).1, e.isScheduleSend = false := by
  unfold summarize_diff_with_openai
  dsimp only
  split
  · intro e he; simp at he
  · intro e he
    split at he <;> simp at he <;>
      first
        | (subst he; rfl)
        | (rcases he with rfl | rfl <;> rfl)

/-- The fetch-then-summarize pipeline never schedules a publish. -/
lemma process_trace_no_schedule (cfg : Config) (net : NetOracle) (ai : AiOracle)
    (pr : JValue) (pe : List Effect) (s : String)
    (hp : process_pull_request cfg net ai pr = .ok (pe, s)) :
    ∀ e ∈ pe, e.isScheduleSend = false := by
  unfold process_pull_request at hp
  cases pr <;> simp [JValue.pyGet] at hp
  rename_i fields
  rcases hdl : jlookup fields "diff_url" with _ | v <;> rw [hdl] at hp
  · simp at hp
    rcases hp with ⟨rfl, -⟩
    intro e he
    simp at he
  · simp at hp
    split at hp
    · split at hp
      · rw [Except.ok.injEq, Prod.mk.injEq] at hp
        rcases hp with ⟨rfl, -⟩
        intro e he
        rcases List.mem_append.mp he with h | h
        · exact fetch_trace_no_schedule cfg net _ e h
        · exact summarize_trace_no_schedule ai _ e h
      · simp at hp
    · simp at hp
      rcases hp with ⟨rfl, -⟩
      intro e he
      simp at he

/-! ## Claim theorems -/

/-- C3: for every payload without a `pull_request` field, and for every
payload whose action lies outside the trigger set, the endpoint returns
the success response and performs zero downstream effects (no diff
fetch, no summarization call, no scheduled publish): the effect trace is
empty. -/
theorem spec_c3_no_trigger_no_calls (cfg : Config) (net : NetOracle) (ai : AiOracle)
    (payload : List (String × JValue))
    (h : hasPullRequest payload = false ∨ actionTriggered payload = false) :
    github_webhook cfg net ai payload = .ok ([], okResponse) := by
  rcases hl : jlookup payload "pull_request" with _ | pr
  · unfold github_webhook
    rw [hl]
  · have ht : actionTriggered payload = false := by
      rcases h with h | h
      · exfalso
        unfold hasPullRequest at h
        rw [hl] at h
        simp at h
      · exact h
    unfold github_webhook
    rw [hl]
    simp [ht]

/-- A payload with a non-trigger action (`closed`). -/
def closedPayload : List (String × JValue) :=
  [("action", .str "closed"), ("pull_request", .obj [("title", .str "T")])]

/-- Witness for C3 at the `closed` action. -/
theorem spec_c3_witness :
    (hasPullRequest closedPayload = false ∨ actionTriggered closedPayload = false) ∧
    github_webhook sampleCfg sampleNet sampleAi closedPayload = .ok ([], okResponse) :=
  ⟨Or.inr (by decide),
   spec_c3_no_trigger_no_calls sampleCfg sampleNet sampleAi closedPayload (Or.inr (by decide))⟩

/-- C5: for every diff text that is empty or whitespace-only (its Python
strip is empty), the summarizer returns exactly the no-content sentinel
and its effect trace is empty - no outbound call is made. -/
theorem spec_c5_empty_diff_sentinel (ai : AiOracle) (diff : String)
    (hws : pyStrip diff = "") :
    summarize_diff_with_openai ai diff =
      ([], "Não há conteúdo para análise ou o diff está vazio.") := by
  unfold summarize_diff_with_openai
  simp [hws]

/-- Witness for C5 at a whitespace-only diff. -/
theorem spec_c5_witness :
    pyStrip " \t\n " = "" ∧
    summarize_diff_with_openai sampleAi " \t\n " =
      ([], "Não há conteúdo para análise ou o diff está vazio.") :=
  ⟨by decide, spec_c5_empty_diff_sentinel sampleAi " \t\n " (by decide)⟩

/-- C6: for every non-whitespace diff text, when the summarization call
raises any exception the summarizer catches it, logs it, and returns the
fixed failure sentinel.  The failure is never propagated: the codomain
of `summarize_diff_with_openai` is a plain trace-and-string pair with no
error case, and this theorem shows the sentinel is the value returned. -/
theorem spec_c6_failure_sentinel (ai : AiOracle) (diff : String) (e : PyError)
    (hne : pyStrip diff ≠ "") (hfail : ai (mkChatRequest diff) = .error e) :
    summarize_diff_with_openai ai diff =
      ([.aiCall (mkChatRequest diff), .logAiFailure e], "Falha ao chamar a OpenAI.") := by
  unfold summarize_diff_with_openai
  simp [hne, hfail]

/-- Witness for C6 at a concrete diff and a raising oracle. -/
theorem spec_c6_witness :
    pyStrip "diff --git a b" ≠ "" ∧
    failAi (mkChatRequest "diff --git a b") = .error (.exception "boom") ∧
    summarize_diff_with_openai failAi "diff --git a b" =
      ([.aiCall (mkChatRequest "diff --git a b"), .logAiFailure (.exception "boom")],
       "Falha ao chamar a OpenAI.") :=
  ⟨by decide, rfl,
   spec_c6_failure_sentinel failAi "diff --git a b" (.exception "boom") (by decide) rfl⟩

/-- C7: for every response with a non-200 status, the diff fetch logs
the failure and returns the empty string (not an error), and the
summarizer on that empty result returns the no-content sentinel with an
empty trace - no summarization call is issued. -/
theorem spec_c7_non200_empty (cfg : Config) (net : NetOracle) (ai : AiOracle)
    (url : String) (hstatus : (net url).1 ≠ 200) :
    get_diff_from_github cfg net url =
      ([.httpGet url cfg.githubToken, .logFetchFailure (net url).1], "") ∧
    summarize_diff_with_openai ai (get_diff_from_github cfg net url).2 =
      ([], "Não há conteúdo para análise ou o diff está vazio.") := by
  have hfetch : get_diff_from_github cfg net url =
      ([.httpGet url cfg.githubToken, .logFetchFailure (net url).1], "") := by
    unfold get_diff_from_github
    dsimp only
    rw [if_pos hstatus]
  refine ⟨hfetch, ?_⟩
  rw [hfetch]
  unfold summarize_diff_with_openai
  simp [show pyStrip "" = "" from rfl]

/-- Witness for C7 at a 404 response. -/
theorem spec_c7_witness :
    (net404 "https://x.test/pr.diff").1 ≠ 200 ∧
    (get_diff_from_github sampleCfg net404 "https://x.test/pr.diff" =
      ([.httpGet "https://x.test/pr.diff" "gh-token", .logFetchFailure 404], "") ∧
     summarize_diff_with_openai sampleAi
        (get_diff_from_github sampleCfg net404 "https://x.test/pr.diff").2 =
      ([], "Não há conteúdo para análise ou o diff está vazio.")) :=
  ⟨by decide,
   spec_c7_non200_empty sampleCfg net404 sampleAi "https://x.test/pr.diff" (by decide)⟩

/-- C8: the notification formatter is a pure function of the five
strings; its output is exactly the fixed template - each metadata field
and the summary occur literally, in template order, under the fixed
section headers - and formatting the same inputs twice is byte-identical
(in this embedding the formatter is a function, so the repeated
application is definitionally the same string). -/
theorem spec_c8_formatter_template (t u b h s : String) :
    ((format_discord_message t u b h s).data =
      "**Pull Request**: ".data ++ t.data ++ "\n**Link**: ".data ++ u.data ++
      "\n**Branches**: ".data ++ b.data ++ " <- ".data ++ h.data ++
      "\n\n**Resumo das Mudanças**:\n".data ++ s.data) ∧
    t.data <:+: (format_discord_message t u b h s).data ∧
    u.data <:+: (format_discord_message t u b h s).data ∧
    b.data <:+: (format_discord_message t u b h s).data ∧
    h.data <:+: (format_discord_message t u b h s).data ∧
    s.data <:+: (format_discord_message t u b h s).data ∧
    format_discord_message t u b h s = format_discord_message t u b h s := by
  have heq : (format_discord_message t u b h s).data =
      "**Pull Request**: ".data ++ t.data ++ "\n**Link**: ".data ++ u.data ++
      "\n**Branches**: ".data ++ b.data ++ " <- ".data ++ h.data ++
      "\n\n**Resumo das Mudanças**:\n".data ++ s.data := by
    simp [format_discord_message, String.data_append]
  refine ⟨heq, ?_, ?_, ?_, ?_, ?_, rfl⟩ <;> rw [heq]
  · exact ⟨"**Pull Request**: ".data,
      "\n**Link**: ".data ++ u.data ++ "\n**Branches**: ".data ++ b.data ++
        " <- ".data ++ h.data ++ "\n\n**Resumo das Mudanças**:\n".data ++ s.data,
      by simp [List.append_assoc]⟩
  · exact ⟨"**Pull Request**: ".data ++ t.data ++ "\n**Link**: ".data,
      "\n**Branches**: ".data ++ b.data ++ " <- ".data ++ h.data ++
        "\n\n**Resumo das Mudanças**:\n".data ++ s.data,
      by simp [List.append_assoc]⟩
  · exact ⟨"**Pull Request**: ".data ++ t.data ++ "\n**Link**: ".data ++ u.data ++
        "\n**Branches**: ".data,
      " <- ".data ++ h.data ++ "\n\n**Resumo das Mudanças**:\n".data ++ s.data,
      by simp [List.append_assoc]⟩
  · exact ⟨"**Pull Request**: ".data ++ t.data ++ "\n**Link**: ".data ++ u.data ++
        "\n**Branches**: ".data ++ b.data ++ " <- ".data,
      "\n\n**Resumo das Mudanças**:\n".data ++ s.data,
      by simp [List.append_assoc]⟩
  · exact ⟨"**Pull Request**: ".data ++ t.data ++ "\n**Link**: ".data ++ u.data ++
        "\n**Branches**: ".data ++ b.data ++ " <- ".data ++ h.data ++
        "\n\n**Resumo das Mudanças**:\n".data,
      [],
      by simp [List.append_assoc]⟩

/-- C9 counterexample: the claim asserts the publish operation does not
raise for every string channel id, including empty and non-numeric ones;
but on the empty channel id the conversion `int(channel_id)` raises
`ValueError` before any resolution is attempted, so the coroutine raises
rather than logging. -/
theorem spec_c9_counterexample :
    send_discord_message (fun _ => none) "" "hello" = .error .valueError := rfl

/-- C9 (amended): for every channel id that converts to an integer, when
resolution fails the publisher logs the failure, raises nothing, and
performs exactly one resolution attempt (no retry); channel ids that do
not convert raise `ValueError` instead (see the counterexample). -/
theorem spec_c9_amended_resolution_failure (resolve : Int → Option Nat)
    (cid msg : String) (n : Int)
    (hn : pyIntOfString cid = some n) (hr : resolve n = none) :
    send_discord_message resolve cid msg = .ok [.resolveChannel n, .logChannelNotFound] := by
  unfold send_discord_message
  simp [hn, hr]

/-- Witness for the amended C9 at channel id "123". -/
theorem spec_c9_amended_witness :
    pyIntOfString "123" = some 123 ∧
    (fun _ => (none : Option Nat)) (123 : Int) = none ∧
    send_discord_message (fun _ => none) "123" "hi" =
      .ok [.resolveChannel 123, .logChannelNotFound] :=
  ⟨by decide, rfl,
   spec_c9_amended_resolution_failure (fun _ => none) "123" "hi" 123 (by decide) rfl⟩

/-- C1 counterexample: the claim says the handler schedules the entire
fetch→summarize→format→publish sequence to run after the response, so
the synchronous, pre-response effect trace should contain no diff fetch
and no summarization call.  On a qualifying payload the handler in fact
performs both synchronously - they appear in the trace of effects
executed before the response - and only the publish is scheduled. -/
theorem spec_c1_counterexample :
    github_webhook sampleCfg sampleNet sampleAi fullPayload = .ok (sampleTrace, okResponse) ∧
    Effect.httpGet "https://x.test/pr.diff" "gh-token" ∈ sampleTrace ∧
    Effect.aiCall (mkChatRequest "diff body") ∈ sampleTrace :=
  ⟨rfl, by simp [sampleTrace], by simp [sampleTrace]⟩

/-- C1 (amended): for every qualifying pull-request event the handler
runs the diff fetch and the summarization synchronously, before the
success acknowledgment is produced, and defers only the chat publish:
the pre-response trace ends with the single scheduled publish, contains
the authorized diff fetch, and contains no other scheduling. -/
theorem spec_c1_amended_sync_pipeline (cfg : Config) (net : NetOracle) (ai : AiOracle)
    (a t u b h du : String) (ha : a ∈ triggerActions) (hdu : du ≠ "") :
    ∃ pre msg,
      github_webhook cfg net ai (mkPRPayload a t u b h [("diff_url", .str du)]) =
        .ok (pre ++ [.scheduleSend cfg.discordChannelId msg], okResponse) ∧
      Effect.httpGet du cfg.githubToken ∈ pre ∧
      ∀ e ∈ pre, e.isScheduleSend = false := by
  refine ⟨(get_diff_from_github cfg net du).1 ++
      (summarize_diff_with_openai ai (get_diff_from_github cfg net du).2).1,
    format_discord_message t u b h
      (summarize_diff_with_openai ai (get_diff_from_github cfg net du).2).2,
    ?_, ?_, ?_⟩
  · have ha2 : a = "opened" ∨ a = "edited" ∨ a = "synchronize" ∨ a = "reopened" := by
      simpa [triggerActions] using ha
    rcases ha2 with rfl | rfl | rfl | rfl <;>
      simp [github_webhook, mkPRPayload, actionTriggered, triggerActions, jlookup,
        JValue.getItem, JValue.pyGet, process_pull_request, JValue.pyTruthy, hdu,
        JValue.pyStr]
  · exact List.mem_append_left _ (httpGet_mem_fetch_trace cfg net du)
  · intro e he
    rcases List.mem_append.mp he with hm | hm
    · exact fetch_trace_no_schedule cfg net du e hm
    · exact summarize_trace_no_schedule ai _ e hm

/-- Witness for the amended C1 at a concrete qualifying payload. -/
theorem spec_c1_amended_witness :
    "opened" ∈ triggerActions ∧ "https://x.test/pr.diff" ≠ "" ∧
    (∃ pre msg,
      github_webhook sampleCfg sampleNet sampleAi
          (mkPRPayload "opened" "T" "U" "main" "dev"
            [("diff_url", .str "https://x.test/pr.diff")]) =
        .ok (pre ++ [.scheduleSend sampleCfg.discordChannelId msg], okResponse) ∧
      Effect.httpGet "https://x.test/pr.diff" sampleCfg.githubToken ∈ pre ∧
      ∀ e ∈ pre, e.isScheduleSend = false) :=
  ⟨by decide, by decide,
   spec_c1_amended_sync_pipeline sampleCfg sampleNet sampleAi
     "opened" "T" "U" "main" "dev" "https://x.test/pr.diff" (by decide) (by decide)⟩

/-- C4 counterexample: the claim says every qualifying event whose PR
object is missing a required field short-circuits with a fallback
message and no unhandled error escapes the handler; but a qualifying PR
object missing `html_url` (here: carrying only `title`) makes the
handler raise an uncaught `KeyError`. -/
theorem spec_c4_counterexample :
    github_webhook sampleCfg sampleNet sampleAi
        [("action", .str "opened"), ("pull_request", .obj [("title", .str "Fix bug")])] =
      .error (.keyError "html_url") := rfl

/-- C4 (amended): a qualifying event whose PR object carries the four
metadata fields but no diff locator short-circuits the pipeline with the
fallback text as the summary inside the single scheduled notification -
no fetch and no summarization call happen and the response is the
success acknowledgment; however an event missing one of the metadata
fields themselves (title, html_url, base.ref, head.ref) raises an
unhandled `KeyError` instead (see the counterexample). -/
theorem spec_c4_amended_no_diff_url (cfg : Config) (net : NetOracle) (ai : AiOracle)
    (a t u b h : String) (ha : a ∈ triggerActions) :
    github_webhook cfg net ai (mkPRPayload a t u b h []) =
      .ok ([.scheduleSend cfg.discordChannelId
              (format_discord_message t u b h "Pull Request não possui \x27diff_url\x27.")],
           okResponse) := by
  have ha2 : a = "opened" ∨ a = "edited" ∨ a = "synchronize" ∨ a = "reopened" := by
    simpa [triggerActions] using ha
  rcases ha2 with rfl | rfl | rfl | rfl <;>
    simp [github_webhook, mkPRPayload, actionTriggered, triggerActions, jlookup,
      JValue.getItem, JValue.pyGet, process_pull_request, JValue.pyStr]

/-- Witness for the amended C4 at the `edited` action. -/
theorem spec_c4_amended_witness :
    "edited" ∈ triggerActions ∧
    github_webhook sampleCfg sampleNet sampleAi
        (mkPRPayload "edited" "T2" "U2" "b2" "h2" []) =
      .ok ([.scheduleSend "123"
              (format_discord_message "T2" "U2" "b2" "h2"
                "Pull Request não possui \x27diff_url\x27.")],
           okResponse) :=
  ⟨by decide,
   spec_c4_amended_no_diff_url sampleCfg sampleNet sampleAi "edited" "T2" "U2" "b2" "h2"
     (by decide)⟩

/-- Whether an exceptional computation succeeded. -/
def exOk {α : Type} : Except PyError α → Bool
  | .ok _ => true
  | .error _ => false

lemma exOk_iff {α : Type} (x : Except PyError α) : exOk x = true ↔ ∃ v, x = .ok v := by
  cases x <;> simp [exOk]

/-- Whether the `diff_url` entry of a PR object cannot make
`process_pull_request` raise: it is absent, falsy, or a string. -/
def diffLocatorOk : JValue → Bool
  | .obj fields =>
      match jlookup fields "diff_url" with
      | none => true
      | some v => !v.pyTruthy || (match v with | .str _ => true | _ => false)
  | _ => false

/-- Whether a PR object carries everything the qualifying branch of the
handler dereferences without raising: `title`, `html_url`, `base.ref`,
`head.ref`, and a benign `diff_url` entry. -/
def prMetadataOk (pr : JValue) : Bool :=
  exOk (pr.getItem "title") && exOk (pr.getItem "html_url") &&
  exOk ((pr.getItem "base").bind (fun bv => bv.getItem "ref")) &&
  exOk ((pr.getItem "head").bind (fun hv => hv.getItem "ref")) &&
  diffLocatorOk pr

/-- A benign `diff_url` entry keeps the pipeline from raising. -/
lemma process_ok_of_diffLocatorOk (cfg : Config) (net : NetOracle) (ai : AiOracle)
    (pr : JValue) (hok : diffLocatorOk pr = true) :
    ∃ pe s, process_pull_request cfg net ai pr = .ok (pe, s) := by
  cases pr <;> simp [diffLocatorOk] at hok
  rename_i fields
  unfold process_pull_request
  simp only [JValue.pyGet]
  rcases hdl : jlookup fields "diff_url" with _ | v
  · exact ⟨[], "Pull Request não possui \x27diff_url\x27.", rfl⟩
  · cases htr : v.pyTruthy
    · exact ⟨[], "Pull Request não possui \x27diff_url\x27.", by simp [htr]⟩
    · rw [hdl] at hok
      simp [htr] at hok
      rcases v with _ | b | n | sv | fs <;> simp at hok
      refine ⟨(get_diff_from_github cfg net sv).1 ++
          (summarize_diff_with_openai ai (get_diff_from_github cfg net sv).2).1,
        (summarize_diff_with_openai ai (get_diff_from_github cfg net sv).2).2, ?_⟩
      simp [htr]

/-- C2 counterexample: the claim says every parseable JSON object body
gets the `200 ok` response, including a qualifying PR event whose PR
object is missing metadata such as `title`; but on such a payload the
handler raises an uncaught `KeyError` (Flask turns that into a 500, not
the success response). -/
theorem spec_c2_counterexample :
    github_webhook sampleCfg sampleNet sampleAi
        [("action", .str "opened"), ("pull_request", .obj [])] =
      .error (.keyError "title") := rfl

/-- C2 (amended): the endpoint returns `200 {"status": "ok"}` for every
parseable JSON object payload except qualifying PR events whose PR
object lacks one of `title`, `html_url`, `base.ref`, `head.ref` or
carries a truthy non-string `diff_url`; those raise an unhandled
exception out of the handler (see the counterexample).  Formally: if
the payload, whenever it holds a `pull_request` and a trigger action,
satisfies `prMetadataOk`, the handler returns the success response. -/
theorem spec_c2_amended_success (cfg : Config) (net : NetOracle) (ai : AiOracle)
    (payload : List (String × JValue))
    (hmeta : ∀ pr, jlookup payload "pull_request" = some pr →
      actionTriggered payload = true → prMetadataOk pr = true) :
    ∃ tr, github_webhook cfg net ai payload = .ok (tr, okResponse) := by
  rcases hl : jlookup payload "pull_request" with _ | pr
  · exact ⟨[], by unfold github_webhook; rw [hl]⟩
  · cases ht : actionTriggered payload
    · exact ⟨[], by unfold github_webhook; rw [hl]; simp [ht]⟩
    · have hm := hmeta pr hl ht
      unfold prMetadataOk at hm
      simp only [Bool.and_eq_true] at hm
      obtain ⟨⟨⟨⟨h1, h2⟩, h3⟩, h4⟩, h5⟩ := hm
      obtain ⟨tv, htv⟩ := (exOk_iff _).mp h1
      obtain ⟨uv, huv⟩ := (exOk_iff _).mp h2
      rcases hbase : pr.getItem "base" with e | bv
      · rw [hbase] at h3; simp [exOk, Except.bind] at h3
      obtain ⟨brefv, hbrefv⟩ := (exOk_iff _).mp (by rw [hbase] at h3; simpa [Except.bind] using h3)
      rcases hhead : pr.getItem "head" with e | hv
      · rw [hhead] at h4; simp [exOk, Except.bind] at h4
      obtain ⟨hrefv, hhrefv⟩ := (exOk_iff _).mp (by rw [hhead] at h4; simpa [Except.bind] using h4)
      obtain ⟨pe, s, hproc⟩ := process_ok_of_diffLocatorOk cfg net ai pr h5
      refine ⟨pe ++ [.scheduleSend cfg.discordChannelId
        (format_discord_message tv.pyStr uv.pyStr brefv.pyStr hrefv.pyStr s)], ?_⟩
      unfold github_webhook
      rw [hl]
      simp [ht, htv, huv, hbase, hbrefv, hhead, hhrefv, hproc]

/-- Witness for the amended C2 at the complete sample payload. -/
theorem spec_c2_amended_witness :
    (∀ pr, jlookup fullPayload "pull_request" = some pr →
      actionTriggered fullPayload = true → prMetadataOk pr = true) ∧
    (∃ tr, github_webhook sampleCfg sampleNet sampleAi fullPayload = .ok (tr, okResponse)) := by
  have hmeta : ∀ pr, jlookup fullPayload "pull_request" = some pr →
      actionTriggered fullPayload = true → prMetadataOk pr = true := by
    intro pr hpr _
    have hpr2 : some fullPR = some pr := hpr
    cases Option.some.inj hpr2
    decide
  exact ⟨hmeta, spec_c2_amended_success sampleCfg sampleNet sampleAi fullPayload hmeta⟩

/-- C10: for every qualifying pull-request event whose handler completes
(returns the success response rather than raising), exactly one chat
publish is scheduled; it is addressed to the configured channel id and
carries the formatted template message whose summary slot holds the
pipeline result - in particular, when the diff locator is missing the
message body carries the fallback text rather than the notification
being skipped.  (When the fetch or summarization degrades instead, the
summary slot holds the corresponding sentinel by the C5-C7 theorems,
since the summary is exactly the `process_pull_request` result.) -/
theorem spec_c10_single_publish (cfg : Config) (net : NetOracle) (ai : AiOracle)
    (payload : List (String × JValue)) (pr : JValue) (tr : List Effect) (r : HttpResponse)
    (hpr : jlookup payload "pull_request" = some pr)
    (htrig : actionTriggered payload = true)
    (hrun : github_webhook cfg net ai payload = .ok (tr, r)) :
    ∃ t u b h s pe,
      process_pull_request cfg net ai pr = .ok (pe, s) ∧
      tr.filter Effect.isScheduleSend =
        [.scheduleSend cfg.discordChannelId (format_discord_message t u b h s)] ∧
      (diffUrlMissing pr = true → s = "Pull Request não possui \x27diff_url\x27.") := by
  unfold github_webhook at hrun
  rw [hpr] at hrun
  dsimp only at hrun
  rw [if_pos htrig] at hrun
  split at hrun
  · simp at hrun
  rename_i tv htv
  split at hrun
  · simp at hrun
  rename_i uv huv
  split at hrun
  · simp at hrun
  rename_i bv hbv
  split at hrun
  · simp at hrun
  rename_i brefv hbrefv
  split at hrun
  · simp at hrun
  rename_i hv hhv
  split at hrun
  · simp at hrun
  rename_i hrefv hhrefv
  split at hrun
  · simp at hrun
  rename_i res hres
  rw [Except.ok.injEq, Prod.mk.injEq] at hrun
  obtain ⟨htr2, -⟩ := hrun
  subst htr2
  refine ⟨tv.pyStr, uv.pyStr, brefv.pyStr, hrefv.pyStr, res.2, res.1, hres, ?_, ?_⟩
  · rw [List.filter_append]
    have hnil : res.1.filter Effect.isScheduleSend = [] := by
      rw [List.filter_eq_nil_iff]
      intro e he
      simp [process_trace_no_schedule cfg net ai pr res.1 res.2 hres e he]
    rw [hnil]
    simp [Effect.isScheduleSend]
  · intro hmiss
    cases pr <;> simp [diffUrlMissing] at hmiss
    rename_i fields
    unfold process_pull_request at hres
    simp only [JValue.pyGet] at hres
    rcases hdl : jlookup fields "diff_url" with _ | v
    · rw [hdl] at hres
      simp at hres
      rw [← hres]
    · rw [hdl] at hres hmiss
      simp at hmiss
      simp [hmiss] at hres
      rw [← hres]

/-- Witness for C10 at the complete sample payload. -/
theorem spec_c10_witness :
    jlookup fullPayload "pull_request" = some fullPR ∧
    actionTriggered fullPayload = true ∧
    github_webhook sampleCfg sampleNet sampleAi fullPayload = .ok (sampleTrace, okResponse) ∧
    (∃ t u b h s pe,
      process_pull_request sampleCfg sampleNet sampleAi fullPR = .ok (pe, s) ∧
      sampleTrace.filter Effect.isScheduleSend =
        [.scheduleSend sampleCfg.discordChannelId (format_discord_message t u b h s)] ∧
      (diffUrlMissing fullPR = true → s = "Pull Request não possui \x27diff_url\x27.")) :=
  ⟨rfl, rfl, rfl,
   spec_c10_single_publish sampleCfg sampleNet sampleAi fullPayload fullPR sampleTrace
     okResponse rfl rfl rfl⟩
